import Mathlib

/-!
Verification of the SASU/EURL compensation simulator.

The calculation engine of `app.py` is embedded shallowly over `ℚ`:
every fiscal constant, the corporate-tax calculator `calcul_is`, the
progressive income-tax calculator `calcul_ir` (with its bracket walk),
the marginal-rate helper, and the two five-stage pipelines
`simuler_sasu` and `simuler_eurl` are translated term by term from the
source.  The parameter-bundle validation of
`simulateur_remuneration/models` is embedded as `postInitOk`.
-/

/-! ### Fiscal constants (2024) -/

def IS_TAUX_REDUIT : ℚ := 0.15
def IS_TAUX_NORMAL : ℚ := 0.25
def IS_SEUIL_REDUIT : ℚ := 42500

def FLAT_TAX : ℚ := 0.30
def PRELEVEMENT_SOCIAUX : ℚ := 0.172

def CHARGES_SASU_TAUX : ℚ := 0.82
def CHARGES_EURL_TNS_TAUX : ℚ := 0.45
def CHARGES_DIVIDENDES_EURL : ℚ := 0.45

/-- The 2024 income-tax brackets.  The final bracket of the source has
threshold `float("inf")`, modelled as `none`. -/
def TRANCHES_IR : List (Option ℚ × ℚ) :=
  [(some 11294, 0.00), (some 28797, 0.11), (some 82341, 0.30),
   (some 177106, 0.41), (none, 0.45)]

/-! ### Bracket calculators -/

/-- `calcul_is` from `app.py`: two-bracket corporate tax. -/
def calcul_is (benefice : ℚ) : ℚ :=
  if benefice ≤ 0 then 0
  else if benefice ≤ IS_SEUIL_REDUIT then benefice * IS_TAUX_REDUIT
  else IS_SEUIL_REDUIT * IS_TAUX_REDUIT + (benefice - IS_SEUIL_REDUIT) * IS_TAUX_NORMAL

/-- The bracket walk of `calcul_ir`: accumulator `impot_par_part` and the
previous threshold `tranche_precedente` are threaded exactly as the
source's loop does; a `none` threshold (`inf`) always matches. -/
def ir_boucle (revenu_par_part : ℚ) :
    List (Option ℚ × ℚ) → ℚ → ℚ → ℚ
  | [], impot_par_part, _ => impot_par_part
  | (seuil, taux) :: reste, impot_par_part, tranche_precedente =>
    match seuil with
    | none => impot_par_part + (revenu_par_part - tranche_precedente) * taux
    | some s =>
      if revenu_par_part ≤ s then
        impot_par_part + (revenu_par_part - tranche_precedente) * taux
      else
        ir_boucle revenu_par_part reste (impot_par_part + (s - tranche_precedente) * taux) s

/-- `calcul_ir` from `app.py`: progressive income tax with family quotient. -/
def calcul_ir (revenu_imposable : ℚ) (parts : ℚ) : ℚ :=
  if revenu_imposable ≤ 0 then 0
  else ir_boucle (revenu_imposable / parts) TRANCHES_IR 0 0 * parts

/-- The bracket walk of `calcul_taux_marginal_ir`. -/
def taux_marginal_boucle (revenu_par_part : ℚ) : List (Option ℚ × ℚ) → ℚ
  | [] => 0.45
  | (seuil, taux) :: reste =>
    match seuil with
    | none => taux
    | some s =>
      if revenu_par_part ≤ s then taux else taux_marginal_boucle revenu_par_part reste

/-- `calcul_taux_marginal_ir` from `app.py`. -/
def calcul_taux_marginal_ir (revenu_imposable : ℚ) (parts : ℚ) : ℚ :=
  taux_marginal_boucle (revenu_imposable / parts) TRANCHES_IR

/-! ### Simulation result and the two pipelines -/

/-- `ResultatSimulation` from `app.py`. -/
structure ResultatSimulation where
  statut : String
  ca_ht : ℚ
  charges_exploitation : ℚ
  benefice_avant_remuneration : ℚ
  remuneration_brute : ℚ
  charges_sociales : ℚ
  remuneration_nette : ℚ
  benefice_apres_remuneration : ℚ
  is_societe : ℚ
  resultat_net_societe : ℚ
  dividendes_bruts : ℚ
  charges_dividendes : ℚ
  impot_dividendes : ℚ
  dividendes_nets : ℚ
  revenu_imposable_ir : ℚ
  ir_total : ℚ
  net_disponible : ℚ
  taux_prelevement_global : ℚ
  deriving Repr

/-- `simuler_sasu` from `app.py`, translated line by line: the Python
`if` that reassigns `cout_total_remuneration`, `remuneration_nette` and
`charges_sociales` becomes three `if`s on the same condition. -/
def simuler_sasu (ca_ht charges_exploitation remuneration_nette_cible : ℚ)
    (distribuer_dividendes : Bool) (parts_fiscales : ℚ)
    (option_bareme_ir : Bool) : ResultatSimulation :=
  let benefice_avant_remuneration := ca_ht - charges_exploitation
  let cout_cible := remuneration_nette_cible * (1 + CHARGES_SASU_TAUX)
  let cout_total_remuneration :=
    if benefice_avant_remuneration < cout_cible then benefice_avant_remuneration else cout_cible
  let remuneration_nette :=
    if benefice_avant_remuneration < cout_cible then
      cout_total_remuneration / (1 + CHARGES_SASU_TAUX)
    else remuneration_nette_cible
  let charges_sociales :=
    if benefice_avant_remuneration < cout_cible then
      cout_total_remuneration - remuneration_nette
    else remuneration_nette_cible * CHARGES_SASU_TAUX
  let benefice_apres_remuneration := benefice_avant_remuneration - cout_total_remuneration
  let is_societe := calcul_is benefice_apres_remuneration
  let resultat_net_societe := benefice_apres_remuneration - is_societe
  let distribution := distribuer_dividendes = true ∧ 0 < resultat_net_societe
  let dividendes_bruts := if distribution then resultat_net_societe else 0
  let charges_dividendes : ℚ := 0
  let dividendes_imposables :=
    if distribution then (if option_bareme_ir then dividendes_bruts * 0.6 else 0) else 0
  let impot_dividendes :=
    if distribution then
      (if option_bareme_ir then dividendes_bruts * PRELEVEMENT_SOCIAUX
       else dividendes_bruts * FLAT_TAX)
    else 0
  let dividendes_nets := if distribution then dividendes_bruts - impot_dividendes else 0
  let abattement_10 := min (remuneration_nette * 0.10) 14171
  let revenu_imposable_salaire := remuneration_nette - abattement_10
  let revenu_imposable_ir :=
    if option_bareme_ir = true ∧ distribuer_dividendes = true then
      revenu_imposable_salaire + dividendes_imposables
    else revenu_imposable_salaire
  let ir_total := calcul_ir revenu_imposable_ir parts_fiscales
  let net_disponible := remuneration_nette + dividendes_nets - ir_total
  let total_preleve := charges_sociales + is_societe + impot_dividendes + ir_total
  let taux_prelevement := if 0 < ca_ht then total_preleve / ca_ht else 0
  { statut := "SASU"
    ca_ht := ca_ht
    charges_exploitation := charges_exploitation
    benefice_avant_remuneration := benefice_avant_remuneration
    remuneration_brute := remuneration_nette + charges_sociales * 0.55
    charges_sociales := charges_sociales
    remuneration_nette := remuneration_nette
    benefice_apres_remuneration := benefice_apres_remuneration
    is_societe := is_societe
    resultat_net_societe := resultat_net_societe
    dividendes_bruts := dividendes_bruts
    charges_dividendes := charges_dividendes
    impot_dividendes := impot_dividendes
    dividendes_nets := dividendes_nets
    revenu_imposable_ir := revenu_imposable_ir
    ir_total := ir_total
    net_disponible := net_disponible
    taux_prelevement_global := taux_prelevement }

/-- `simuler_eurl` from `app.py`, translated the same way; social
contributions hit the part of the dividends above 10% of the capital. -/
def simuler_eurl (ca_ht charges_exploitation remuneration_nette_cible : ℚ)
    (distribuer_dividendes : Bool) (parts_fiscales : ℚ)
    (capital_social : ℚ) (option_bareme_ir : Bool) : ResultatSimulation :=
  let benefice_avant_remuneration := ca_ht - charges_exploitation
  let cout_cible := remuneration_nette_cible * (1 + CHARGES_EURL_TNS_TAUX)
  let cout_total_remuneration :=
    if benefice_avant_remuneration < cout_cible then benefice_avant_remuneration else cout_cible
  let remuneration_nette :=
    if benefice_avant_remuneration < cout_cible then
      cout_total_remuneration / (1 + CHARGES_EURL_TNS_TAUX)
    else remuneration_nette_cible
  let charges_sociales :=
    if benefice_avant_remuneration < cout_cible then
      cout_total_remuneration - remuneration_nette
    else remuneration_nette_cible * CHARGES_EURL_TNS_TAUX
  let benefice_apres_remuneration := benefice_avant_remuneration - cout_total_remuneration
  let is_societe := calcul_is benefice_apres_remuneration
  let resultat_net_societe := benefice_apres_remuneration - is_societe
  let distribution := distribuer_dividendes = true ∧ 0 < resultat_net_societe
  let dividendes_bruts := if distribution then resultat_net_societe else 0
  let seuil_10_pourcent := capital_social * 0.10
  let dividendes_soumis_charges := max 0 (dividendes_bruts - seuil_10_pourcent)
  let charges_dividendes :=
    if distribution then dividendes_soumis_charges * CHARGES_DIVIDENDES_EURL else 0
  let dividendes_apres_charges := dividendes_bruts - charges_dividendes
  let dividendes_imposables :=
    if distribution then (if option_bareme_ir then dividendes_apres_charges * 0.6 else 0) else 0
  let impot_dividendes :=
    if distribution then
      (if option_bareme_ir then dividendes_apres_charges * PRELEVEMENT_SOCIAUX
       else dividendes_apres_charges * FLAT_TAX)
    else 0
  let dividendes_nets := if distribution then dividendes_apres_charges - impot_dividendes else 0
  let abattement_10 := min (remuneration_nette * 0.10) 14171
  let revenu_imposable_salaire := remuneration_nette - abattement_10
  let revenu_imposable_ir :=
    if option_bareme_ir = true ∧ distribuer_dividendes = true then
      revenu_imposable_salaire + dividendes_imposables
    else revenu_imposable_salaire
  let ir_total := calcul_ir revenu_imposable_ir parts_fiscales
  let net_disponible := remuneration_nette + dividendes_nets - ir_total
  let total_preleve :=
    charges_sociales + charges_dividendes + is_societe + impot_dividendes + ir_total
  let taux_prelevement := if 0 < ca_ht then total_preleve / ca_ht else 0
  { statut := "EURL"
    ca_ht := ca_ht
    charges_exploitation := charges_exploitation
    benefice_avant_remuneration := benefice_avant_remuneration
    remuneration_brute := remuneration_nette * 1.31
    charges_sociales := charges_sociales
    remuneration_nette := remuneration_nette
    benefice_apres_remuneration := benefice_apres_remuneration
    is_societe := is_societe
    resultat_net_societe := resultat_net_societe
    dividendes_bruts := dividendes_bruts
    charges_dividendes := charges_dividendes
    impot_dividendes := impot_dividendes
    dividendes_nets := dividendes_nets
    revenu_imposable_ir := revenu_imposable_ir
    ir_total := ir_total
    net_disponible := net_disponible
    taux_prelevement_global := taux_prelevement }

/-! ### Parameter-bundle validation (`simulateur_remuneration/models`) -/

/-- The raw field bundle handed to the `SimulationParameters` constructor
(`models/simulation.py`), before `__post_init__` validation. -/
structure ParametresSimulation where
  annual_revenue : ℚ
  operating_expenses : ℚ
  target_net_salary : ℚ
  distribute_dividends : Bool
  tax_parts : ℚ
  use_progressive_tax : Bool
  share_capital : ℚ

/-- `SimulationParameters.annual_target_salary`. -/
def annual_target_salary (p : ParametresSimulation) : ℚ :=
  p.target_net_salary * 12

/-- `MonetaryValueValidator.validate` (`models/validators.py`): `true` iff
it does not raise. -/
def monetaryValueOk (allow_zero : Bool) (value : ℚ) : Bool :=
  if value < 0 then false
  else if allow_zero = false ∧ value = 0 then false
  else true

/-- `TaxPartsValidator.validate`: `true` iff it does not raise. -/
def taxPartsOk (value : ℚ) : Bool :=
  if value < 0.5 ∨ 6.0 < value then false else true

/-- `BusinessLogicValidator.validate_revenue_expenses_coherence`. -/
def revenueExpensesOk (revenue expenses : ℚ) : Bool :=
  if revenue < expenses then false else true

/-- `BusinessLogicValidator.validate_salary_revenue_coherence`. -/
def salaryRevenueOk (annual_salary revenue : ℚ) : Bool :=
  if revenue < annual_salary then false else true

/-- `BusinessLogicValidator.validate_dividend_feasibility`. -/
def dividendFeasibilityOk (revenue expenses annual_salary : ℚ)
    (distribute_dividends : Bool) : Bool :=
  if distribute_dividends = false then true
  else if revenue - expenses - annual_salary * 1.5 < 0 then false else true

/-- `SimulationParameters.__post_init__`: `true` iff no validator raises,
i.e. iff construction of the frozen dataclass succeeds. -/
def postInitOk (p : ParametresSimulation) : Bool :=
  monetaryValueOk true p.annual_revenue
    && monetaryValueOk true p.operating_expenses
    && monetaryValueOk true p.target_net_salary
    && monetaryValueOk false p.share_capital
    && taxPartsOk p.tax_parts
    && revenueExpensesOk p.annual_revenue p.operating_expenses
    && salaryRevenueOk (annual_target_salary p) p.annual_revenue
    && dividendFeasibilityOk p.annual_revenue p.operating_expenses
        (annual_target_salary p) p.distribute_dividends

/-! ### Spec-side bracket walk (for the refinement claim on `calcul_ir`) -/

/-- Modelled from the spec (§4.2 wording, not from the code): accumulate
`(min (per-share income) threshold - previous threshold) * rate` over the
ordered brackets and stop at the first bracket whose upper threshold is
`≥` the per-share income (a `none` threshold, `+∞`, always stops and
`min` with it is the income itself). -/
def ir_spec_boucle (revenu_par_part : ℚ) :
    List (Option ℚ × ℚ) → ℚ → ℚ
  | [], _ => 0
  | (seuil, taux) :: reste, tranche_precedente =>
    match seuil with
    | none => (revenu_par_part - tranche_precedente) * taux
    | some s =>
      if s ≥ revenu_par_part then (min revenu_par_part s - tranche_precedente) * taux
      else (min revenu_par_part s - tranche_precedente) * taux
            + ir_spec_boucle revenu_par_part reste s

/-- Modelled from the spec: income `≤ 0` yields `0`; otherwise the
per-share tax accumulated by `ir_spec_boucle` is multiplied back by the
number of shares. -/
def calcul_ir_spec (revenu_imposable : ℚ) (parts : ℚ) : ℚ :=
  if revenu_imposable ≤ 0 then 0
  else ir_spec_boucle (revenu_imposable / parts) TRANCHES_IR 0 * parts

/-! ### Helper lemmas: the bracket walk in closed form -/

/-- The concrete 2024 per-share tax schedule, as a nested conditional. -/
def bareme2024 (x : ℚ) : ℚ :=
  if x ≤ 11294 then 0
  else if x ≤ 28797 then (x - 11294) * 0.11
  else if x ≤ 82341 then 1925.33 + (x - 28797) * 0.30
  else if x ≤ 177106 then 17988.53 + (x - 82341) * 0.41
  else 56842.18 + (x - 177106) * 0.45

/-- The concrete 2024 marginal rate, as a nested conditional. -/
def tauxMarginal2024 (x : ℚ) : ℚ :=
  if x ≤ 11294 then 0
  else if x ≤ 28797 then 0.11
  else if x ≤ 82341 then 0.30
  else if x ≤ 177106 then 0.41
  else 0.45

lemma ir_boucle_eval (x : ℚ) : ir_boucle x TRANCHES_IR 0 0 = bareme2024 x := by
  simp only [TRANCHES_IR, ir_boucle, bareme2024]
  split_ifs <;> norm_num

lemma taux_marginal_boucle_eval (x : ℚ) :
    taux_marginal_boucle x TRANCHES_IR = tauxMarginal2024 x := by
  simp only [TRANCHES_IR, taux_marginal_boucle, tauxMarginal2024]
  norm_num

lemma bareme2024_nonneg (x : ℚ) : 0 ≤ bareme2024 x := by
  unfold bareme2024; split_ifs <;> linarith

lemma bareme2024_zero (x : ℚ) (h : x ≤ 11294) : bareme2024 x = 0 := by
  unfold bareme2024; rw [if_pos h]

lemma bareme2024_le_self (x : ℚ) (h : 0 ≤ x) : bareme2024 x ≤ x := by
  unfold bareme2024; split_ifs <;> linarith

lemma bareme2024_mono (x y : ℚ) (h : x ≤ y) : bareme2024 x ≤ bareme2024 y := by
  unfold bareme2024; split_ifs <;> linarith

lemma bareme2024_le_marg (x : ℚ) (h : 0 ≤ x) :
    bareme2024 x ≤ tauxMarginal2024 x * x := by
  unfold bareme2024 tauxMarginal2024; split_ifs <;> linarith

lemma bareme2024_tangent (x y : ℚ) (hx : 0 ≤ x) (hxy : x ≤ y) :
    tauxMarginal2024 x * (y - x) ≤ bareme2024 y - bareme2024 x := by
  unfold bareme2024 tauxMarginal2024; split_ifs <;> linarith

/-- Ratio monotonicity of the per-share schedule: `bareme2024 x / x` is
non-decreasing, stated multiplicatively. -/
lemma bareme2024_ratio_mono (x y : ℚ) (hx : 0 < x) (hxy : x ≤ y) :
    bareme2024 x * y ≤ bareme2024 y * x := by
  have h1 := bareme2024_tangent x y hx.le hxy
  have h2 := bareme2024_le_marg x hx.le
  have h3 : bareme2024 x * (y - x) ≤ tauxMarginal2024 x * x * (y - x) :=
    mul_le_mul_of_nonneg_right h2 (by linarith)
  have h4 : x * (tauxMarginal2024 x * (y - x)) ≤ x * (bareme2024 y - bareme2024 x) :=
    mul_le_mul_of_nonneg_left h1 hx.le
  nlinarith [h3, h4]

/-- The source's accumulator loop agrees with the spec-side walk. -/
lemma ir_boucle_eq_spec (r : ℚ) (l : List (Option ℚ × ℚ)) :
    ∀ impot prec : ℚ, ir_boucle r l impot prec = impot + ir_spec_boucle r l prec := by
  induction l with
  | nil => intro impot prec; simp [ir_boucle, ir_spec_boucle]
  | cons hd tl ih =>
    intro impot prec
    obtain ⟨seuil, taux⟩ := hd
    cases seuil with
    | none => simp [ir_boucle, ir_spec_boucle]
    | some s =>
      by_cases hrs : r ≤ s
      · simp [ir_boucle, ir_spec_boucle, hrs, min_eq_left hrs]
      · have hs : ¬ s ≥ r := hrs
        have hsr : s ≤ r := le_of_lt (lt_of_not_le hrs)
        simp only [ir_boucle, ir_spec_boucle, if_neg hrs, if_neg hs, min_eq_right hsr]
        rw [ih]; ring

lemma calcul_ir_nonneg (revenu parts : ℚ) : 0 ≤ calcul_ir revenu parts := by
  unfold calcul_ir
  split_ifs with h
  · exact le_refl 0
  · rw [ir_boucle_eval]
    push_neg at h
    rcases lt_trichotomy parts 0 with hp | hp | hp
    · have hdiv : revenu / parts < 0 := div_neg_of_pos_of_neg h hp
      rw [bareme2024_zero _ (by linarith), zero_mul]
    · rw [hp, div_zero, bareme2024_zero 0 (by norm_num), zero_mul]
    · exact mul_nonneg (bareme2024_nonneg _) hp.le

lemma calcul_ir_le_max (revenu parts : ℚ) : calcul_ir revenu parts ≤ max revenu 0 := by
  unfold calcul_ir
  split_ifs with h
  · exact le_max_right _ _
  · rw [ir_boucle_eval]
    push_neg at h
    rcases lt_trichotomy parts 0 with hp | hp | hp
    · have hdiv : revenu / parts < 0 := div_neg_of_pos_of_neg h hp
      rw [bareme2024_zero _ (by linarith), zero_mul]
      exact le_max_of_le_right (le_refl 0)
    · rw [hp, div_zero, bareme2024_zero 0 (by norm_num), zero_mul]
      exact le_max_of_le_right (le_refl 0)
    · refine le_max_of_le_left ?_
      have h1 : bareme2024 (revenu / parts) ≤ revenu / parts :=
        bareme2024_le_self _ (div_nonneg h.le hp.le)
      calc bareme2024 (revenu / parts) * parts
          ≤ revenu / parts * parts := mul_le_mul_of_nonneg_right h1 hp.le
        _ = revenu := div_mul_cancel₀ revenu hp.ne'

/-! ### Validator characterizations -/

lemma monetaryValueOk_allow_iff (v : ℚ) : monetaryValueOk true v = true ↔ 0 ≤ v := by
  unfold monetaryValueOk
  split_ifs with h1 h2
  · exact iff_of_false (by simp) (by linarith)
  · exact absurd h2.1 (by simp)
  · exact iff_of_true rfl (not_lt.1 h1)

lemma monetaryValueOk_strict_iff (v : ℚ) : monetaryValueOk false v = true ↔ 0 < v := by
  unfold monetaryValueOk
  split_ifs with h1 h2
  · exact iff_of_false (by simp) (by linarith)
  · exact iff_of_false (by simp) (by rw [h2.2]; exact lt_irrefl 0)
  · refine iff_of_true rfl ?_
    exact lt_of_le_of_ne (not_lt.1 h1) (fun hv => h2 ⟨rfl, hv.symm⟩)

lemma taxPartsOk_iff (v : ℚ) : taxPartsOk v = true ↔ (1/2 : ℚ) ≤ v ∧ v ≤ 6 := by
  unfold taxPartsOk
  split_ifs with h
  · refine iff_of_false (by simp) ?_
    rintro ⟨h1, h2⟩
    rcases h with h | h <;> [linarith [show (0.5 : ℚ) = 1/2 by norm_num]; linarith
      [show (6.0 : ℚ) = 6 by norm_num]]
  · push_neg at h
    refine iff_of_true rfl ⟨?_, ?_⟩
    · have := h.1; linarith [show (0.5 : ℚ) = 1/2 by norm_num]
    · have := h.2; linarith [show (6.0 : ℚ) = 6 by norm_num]

lemma revenueExpensesOk_iff (rev exp : ℚ) :
    revenueExpensesOk rev exp = true ↔ exp ≤ rev := by
  unfold revenueExpensesOk
  split_ifs with h
  · exact iff_of_false (by simp) (not_le.2 h)
  · exact iff_of_true rfl (not_lt.1 h)

lemma salaryRevenueOk_iff (sal rev : ℚ) :
    salaryRevenueOk sal rev = true ↔ sal ≤ rev := by
  unfold salaryRevenueOk
  split_ifs with h
  · exact iff_of_false (by simp) (not_le.2 h)
  · exact iff_of_true rfl (not_lt.1 h)

lemma dividendFeasibilityOk_iff (rev exp sal : ℚ) (dd : Bool) :
    dividendFeasibilityOk rev exp sal dd = true
      ↔ (dd = true → (3/2 : ℚ) * sal ≤ rev - exp) := by
  unfold dividendFeasibilityOk
  cases dd with
  | false => simp
  | true =>
    simp only [show (false = false) = True by simp, if_true]
    norm_num
    constructor <;> intro h <;> linarith

/-! ### Claim theorems -/

/-- C5: the corporate-tax calculator returns `0` on profit `≤ 0`, taxes
profit in `(0, 42500]` at the reduced rate `0.15` (so `6375` at
`42500`), and beyond the threshold adds the normal rate `0.25` on the
excess (so `20750` at `100000`). -/
theorem calcul_is_two_bracket (p : ℚ) :
    (p ≤ 0 → calcul_is p = 0)
    ∧ (0 < p → p ≤ 42500 → calcul_is p = p * 0.15)
    ∧ (42500 < p → calcul_is p = 42500 * 0.15 + (p - 42500) * 0.25)
    ∧ calcul_is 42500 = 6375 ∧ calcul_is 100000 = 20750 := by
  unfold calcul_is
  norm_num [IS_SEUIL_REDUIT, IS_TAUX_REDUIT, IS_TAUX_NORMAL]
  refine ⟨fun h0 => ?_, fun h1 h2 => ?_, fun h => ?_⟩
  · intro hc; linarith
  · rw [if_neg (by linarith), if_pos h2]
  · rw [if_neg (by linarith), if_neg (by linarith)]

/-- Witness for C5 at `p = -5`, `p = 30000` and `p = 60000`. -/
theorem calcul_is_two_bracket_witness :
    calcul_is (-5) = 0 ∧ calcul_is 30000 = 30000 * 0.15
      ∧ calcul_is 60000 = 42500 * 0.15 + (60000 - 42500) * 0.25 :=
  ⟨(calcul_is_two_bracket (-5)).1 (by norm_num),
   (calcul_is_two_bracket 30000).2.1 (by norm_num) (by norm_num),
   (calcul_is_two_bracket 60000).2.2.1 (by norm_num)⟩

/-- C3: the progressive income-tax calculator returns `0` on income
`≤ 0` and otherwise walks the ordered brackets exactly as the spec
describes: per-share income, `(min income threshold - previous) * rate`
accumulated, stop at the first threshold `≥` the per-share income
(non-strict, so boundary income stays in the lower bracket), and
multiplication back by the shares (`calcul_ir_spec` is the spec's
wording). -/
theorem calcul_ir_matches_spec (revenu parts : ℚ) :
    (revenu ≤ 0 → calcul_ir revenu parts = 0)
    ∧ calcul_ir revenu parts = calcul_ir_spec revenu parts := by
  constructor
  · intro h; unfold calcul_ir; rw [if_pos h]
  · unfold calcul_ir calcul_ir_spec
    split_ifs with h
    · rfl
    · rw [ir_boucle_eq_spec, zero_add]

/-- Witness for C3 at income `-3` (2 shares) and income `30000`. -/
theorem calcul_ir_matches_spec_witness :
    calcul_ir (-3) 2 = 0 ∧ calcul_ir 30000 1 = calcul_ir_spec 30000 1 :=
  ⟨(calcul_ir_matches_spec (-3) 2).1 (by norm_num),
   (calcul_ir_matches_spec 30000 1).2⟩

/-- C4: for a fixed positive shares divisor, `calcul_ir` is
non-decreasing in income; for a fixed income, it is non-increasing in
the shares divisor (the family-quotient benefit). -/
theorem calcul_ir_monotone :
    (∀ parts revenu1 revenu2 : ℚ, 0 < parts → revenu1 ≤ revenu2 →
        calcul_ir revenu1 parts ≤ calcul_ir revenu2 parts)
    ∧ (∀ revenu parts1 parts2 : ℚ, 0 < parts1 → parts1 ≤ parts2 →
        calcul_ir revenu parts2 ≤ calcul_ir revenu parts1) := by
  constructor
  · intro p r1 r2 hp h12
    by_cases h1 : r1 ≤ 0
    · rw [calcul_ir, if_pos h1]
      exact calcul_ir_nonneg r2 p
    · have h2 : ¬ r2 ≤ 0 := by push_neg at h1 ⊢; linarith
      rw [calcul_ir, if_neg h1, calcul_ir, if_neg h2, ir_boucle_eval, ir_boucle_eval]
      exact mul_le_mul_of_nonneg_right
        (bareme2024_mono _ _ ((div_le_div_right hp).2 h12)) hp.le
  · intro r p1 p2 hp1 hle
    have hp2 : 0 < p2 := lt_of_lt_of_le hp1 hle
    by_cases hr : r ≤ 0
    · rw [calcul_ir, if_pos hr, calcul_ir, if_pos hr]
    · push_neg at hr
      rw [calcul_ir, if_neg (not_le.2 hr), calcul_ir, if_neg (not_le.2 hr),
        ir_boucle_eval, ir_boucle_eval]
      have hx : 0 < r / p2 := div_pos hr hp2
      have hxy : r / p2 ≤ r / p1 := by
        rw [div_le_div_iff hp2 hp1]
        exact mul_le_mul_of_nonneg_left hle hr.le
      have hkey := bareme2024_ratio_mono (r / p2) (r / p1) hx hxy
      have hxp : r / p2 * p2 = r := div_mul_cancel₀ r hp2.ne'
      have hyp : r / p1 * p1 = r := div_mul_cancel₀ r hp1.ne'
      have h5 : bareme2024 (r / p2) * (r / p1) * (p1 * p2)
          ≤ bareme2024 (r / p1) * (r / p2) * (p1 * p2) :=
        mul_le_mul_of_nonneg_right hkey (mul_pos hp1 hp2).le
      have h6 : bareme2024 (r / p2) * p2 * r ≤ bareme2024 (r / p1) * p1 * r := by
        calc bareme2024 (r / p2) * p2 * r
            = bareme2024 (r / p2) * (r / p1 * p1) * p2 := by rw [hyp]; ring
          _ = bareme2024 (r / p2) * (r / p1) * (p1 * p2) := by ring
          _ ≤ bareme2024 (r / p1) * (r / p2) * (p1 * p2) := h5
          _ = bareme2024 (r / p1) * (r / p2 * p2) * p1 := by ring
          _ = bareme2024 (r / p1) * p1 * r := by rw [hxp]; ring
      exact le_of_mul_le_mul_right h6 hr

/-- Witness for C4: income monotonicity at `20000 ≤ 30000` with one
share, shares monotonicity at `1 ≤ 2` shares on income `30000`. -/
theorem calcul_ir_monotone_witness :
    calcul_ir 20000 1 ≤ calcul_ir 30000 1 ∧ calcul_ir 30000 2 ≤ calcul_ir 30000 1 :=
  ⟨calcul_ir_monotone.1 1 20000 30000 (by norm_num) (by norm_num),
   calcul_ir_monotone.2 30000 1 2 (by norm_num) (by norm_num)⟩

/-- C9: constructing a `SimulationParameters` bundle succeeds (no
validator raises) iff all monetary fields are `≥ 0`, the share capital
is `> 0`, the fiscal shares lie in `[0.5, 6]`, expenses do not exceed
revenue, the annualized target compensation (12 times the monthly
target) does not exceed revenue, and — when dividends are requested —
`1.5` times the annual target does not exceed revenue minus expenses. -/
theorem simulation_parameters_validation_iff (p : ParametresSimulation) :
    postInitOk p = true ↔
      (0 ≤ p.annual_revenue ∧ 0 ≤ p.operating_expenses ∧ 0 ≤ p.target_net_salary
        ∧ 0 < p.share_capital ∧ (1/2 : ℚ) ≤ p.tax_parts ∧ p.tax_parts ≤ 6
        ∧ p.operating_expenses ≤ p.annual_revenue
        ∧ 12 * p.target_net_salary ≤ p.annual_revenue
        ∧ (p.distribute_dividends = true →
            (3/2 : ℚ) * (12 * p.target_net_salary)
              ≤ p.annual_revenue - p.operating_expenses)) := by
  unfold postInitOk
  simp only [Bool.and_eq_true, monetaryValueOk_allow_iff, monetaryValueOk_strict_iff,
    taxPartsOk_iff, revenueExpensesOk_iff, salaryRevenueOk_iff, dividendFeasibilityOk_iff,
    annual_target_salary]
  constructor
  · rintro ⟨⟨⟨⟨⟨⟨⟨h1, h2⟩, h3⟩, h4⟩, h5, h6⟩, h7⟩, h8⟩, h9⟩
    exact ⟨h1, h2, h3, h4, h5, h6, h7, by linarith, fun hd => by linarith [h9 hd]⟩
  · rintro ⟨h1, h2, h3, h4, h5, h6, h7, h8, h9⟩
    exact ⟨⟨⟨⟨⟨⟨⟨h1, h2⟩, h3⟩, h4⟩, h5, h6⟩, h7⟩, by linarith⟩, fun hd => by linarith [h9 hd]⟩

/-- C1: in both pipelines the compensation stage charges a total cost
(`profit before - profit after`) that equals contributions plus actual
net compensation and never exceeds the profit available before
compensation, for every target `≥ 0` and any available profit. -/
theorem compensation_affordability_invariant
    (ca ch cible : ℚ) (dd : Bool) (parts cap : ℚ) (opt : Bool) (hcible : 0 ≤ cible) :
    ((simuler_sasu ca ch cible dd parts opt).charges_sociales
        + (simuler_sasu ca ch cible dd parts opt).remuneration_nette
      = (simuler_sasu ca ch cible dd parts opt).benefice_avant_remuneration
        - (simuler_sasu ca ch cible dd parts opt).benefice_apres_remuneration)
    ∧ ((simuler_sasu ca ch cible dd parts opt).benefice_avant_remuneration
        - (simuler_sasu ca ch cible dd parts opt).benefice_apres_remuneration
      ≤ (simuler_sasu ca ch cible dd parts opt).benefice_avant_remuneration)
    ∧ ((simuler_eurl ca ch cible dd parts cap opt).charges_sociales
        + (simuler_eurl ca ch cible dd parts cap opt).remuneration_nette
      = (simuler_eurl ca ch cible dd parts cap opt).benefice_avant_remuneration
        - (simuler_eurl ca ch cible dd parts cap opt).benefice_apres_remuneration)
    ∧ ((simuler_eurl ca ch cible dd parts cap opt).benefice_avant_remuneration
        - (simuler_eurl ca ch cible dd parts cap opt).benefice_apres_remuneration
      ≤ (simuler_eurl ca ch cible dd parts cap opt).benefice_avant_remuneration) := by
  refine ⟨?_, ?_, ?_, ?_⟩ <;>
    (simp only [simuler_sasu, simuler_eurl]; split_ifs with h) <;>
    first
      | ring1
      | linarith

/-- Witness for C1 at the spec's first end-to-end scenario. -/
theorem compensation_affordability_invariant_witness :
    ((simuler_sasu 100000 10000 48000 true 1 false).charges_sociales
        + (simuler_sasu 100000 10000 48000 true 1 false).remuneration_nette
      = (simuler_sasu 100000 10000 48000 true 1 false).benefice_avant_remuneration
        - (simuler_sasu 100000 10000 48000 true 1 false).benefice_apres_remuneration)
    ∧ ((simuler_sasu 100000 10000 48000 true 1 false).benefice_avant_remuneration
        - (simuler_sasu 100000 10000 48000 true 1 false).benefice_apres_remuneration
      ≤ (simuler_sasu 100000 10000 48000 true 1 false).benefice_avant_remuneration)
    ∧ ((simuler_eurl 100000 10000 48000 true 1 1000 false).charges_sociales
        + (simuler_eurl 100000 10000 48000 true 1 1000 false).remuneration_nette
      = (simuler_eurl 100000 10000 48000 true 1 1000 false).benefice_avant_remuneration
        - (simuler_eurl 100000 10000 48000 true 1 1000 false).benefice_apres_remuneration)
    ∧ ((simuler_eurl 100000 10000 48000 true 1 1000 false).benefice_avant_remuneration
        - (simuler_eurl 100000 10000 48000 true 1 1000 false).benefice_apres_remuneration
      ≤ (simuler_eurl 100000 10000 48000 true 1 1000 false).benefice_avant_remuneration) :=
  compensation_affordability_invariant 100000 10000 48000 true 1 1000 false (by norm_num)

/-- C2 counterexample: at revenue `0`, expenses `182`, target `100`
(SASU), the available profit is `-182 ≤ 0` yet the net compensation is
`-100`, not `0` — the code clamps to the (negative) profit instead of
to `0`, so a negative net compensation is produced. -/
theorem compensation_negative_profit_counterexample :
    (simuler_sasu 0 182 100 false 1 false).benefice_avant_remuneration ≤ 0
    ∧ ¬ ((simuler_sasu 0 182 100 false 1 false).remuneration_nette = 0)
    ∧ (simuler_sasu 0 182 100 false 1 false).remuneration_nette = -100 := by
  norm_num [simuler_sasu, CHARGES_SASU_TAUX]

/-- C2 (amended): with available profit exactly `0` the net compensation
and the contributions are both `0`; and whenever the available profit is
`≥ 0` (the validated domain) neither the net compensation nor the
contributions are negative — but for available profit `< 0` with a
positive target the code produces a negative net compensation
(`profit / (1 + rate)`), so the original `≤ 0` wording fails. -/
theorem compensation_edge_cases
    (ca ch cible : ℚ) (dd : Bool) (parts cap : ℚ) (opt : Bool) (hcible : 0 ≤ cible) :
    (((simuler_sasu ca ch cible dd parts opt).benefice_avant_remuneration = 0 →
        (simuler_sasu ca ch cible dd parts opt).remuneration_nette = 0
        ∧ (simuler_sasu ca ch cible dd parts opt).charges_sociales = 0)
      ∧ (0 ≤ (simuler_sasu ca ch cible dd parts opt).benefice_avant_remuneration →
        0 ≤ (simuler_sasu ca ch cible dd parts opt).remuneration_nette
        ∧ 0 ≤ (simuler_sasu ca ch cible dd parts opt).charges_sociales))
    ∧ (((simuler_eurl ca ch cible dd parts cap opt).benefice_avant_remuneration = 0 →
        (simuler_eurl ca ch cible dd parts cap opt).remuneration_nette = 0
        ∧ (simuler_eurl ca ch cible dd parts cap opt).charges_sociales = 0)
      ∧ (0 ≤ (simuler_eurl ca ch cible dd parts cap opt).benefice_avant_remuneration →
        0 ≤ (simuler_eurl ca ch cible dd parts cap opt).remuneration_nette
        ∧ 0 ≤ (simuler_eurl ca ch cible dd parts cap opt).charges_sociales)) := by
  have hS : (0:ℚ) < 1 + CHARGES_SASU_TAUX := by norm_num [CHARGES_SASU_TAUX]
  have hE : (0:ℚ) < 1 + CHARGES_EURL_TNS_TAUX := by norm_num [CHARGES_EURL_TNS_TAUX]
  have hS1 : (1:ℚ) ≤ 1 + CHARGES_SASU_TAUX := by norm_num [CHARGES_SASU_TAUX]
  have hE1 : (1:ℚ) ≤ 1 + CHARGES_EURL_TNS_TAUX := by norm_num [CHARGES_EURL_TNS_TAUX]
  have hS0 : (0:ℚ) ≤ CHARGES_SASU_TAUX := by norm_num [CHARGES_SASU_TAUX]
  have hE0 : (0:ℚ) ≤ CHARGES_EURL_TNS_TAUX := by norm_num [CHARGES_EURL_TNS_TAUX]
  refine ⟨⟨?_, ?_⟩, ⟨?_, ?_⟩⟩ <;>
      (intro hB; simp only [simuler_sasu, simuler_eurl] at hB ⊢; split_ifs with h)
  · rw [hB]; constructor <;> simp
  · have hc0 : cible = 0 := by nlinarith [mul_nonneg hcible hS0]
    rw [hc0]; norm_num
  · exact ⟨div_nonneg hB hS.le, by linarith [div_le_self hB hS1]⟩
  · exact ⟨hcible, mul_nonneg hcible hS0⟩
  · rw [hB]; constructor <;> simp
  · have hc0 : cible = 0 := by nlinarith [mul_nonneg hcible hE0]
    rw [hc0]; norm_num
  · exact ⟨div_nonneg hB hE.le, by linarith [div_le_self hB hE1]⟩
  · exact ⟨hcible, mul_nonneg hcible hE0⟩

/-- Witness for C2 (amended) at revenue `= expenses = 100`, target `5`. -/
theorem compensation_edge_cases_witness :
    (((simuler_sasu 100 100 5 false 1 false).benefice_avant_remuneration = 0 →
        (simuler_sasu 100 100 5 false 1 false).remuneration_nette = 0
        ∧ (simuler_sasu 100 100 5 false 1 false).charges_sociales = 0)
      ∧ (0 ≤ (simuler_sasu 100 100 5 false 1 false).benefice_avant_remuneration →
        0 ≤ (simuler_sasu 100 100 5 false 1 false).remuneration_nette
        ∧ 0 ≤ (simuler_sasu 100 100 5 false 1 false).charges_sociales))
    ∧ (((simuler_eurl 100 100 5 false 1 1000 false).benefice_avant_remuneration = 0 →
        (simuler_eurl 100 100 5 false 1 1000 false).remuneration_nette = 0
        ∧ (simuler_eurl 100 100 5 false 1 1000 false).charges_sociales = 0)
      ∧ (0 ≤ (simuler_eurl 100 100 5 false 1 1000 false).benefice_avant_remuneration →
        0 ≤ (simuler_eurl 100 100 5 false 1 1000 false).remuneration_nette
        ∧ 0 ≤ (simuler_eurl 100 100 5 false 1 1000 false).charges_sociales)) :=
  compensation_edge_cases 100 100 5 false 1 1000 false (by norm_num)

lemma calcul_is_nonneg (p : ℚ) : 0 ≤ calcul_is p := by
  unfold calcul_is
  split_ifs with h1 h2 <;>
    norm_num [IS_SEUIL_REDUIT, IS_TAUX_REDUIT, IS_TAUX_NORMAL] at * <;> nlinarith

lemma calcul_is_le (p : ℚ) (hp : 0 ≤ p) : calcul_is p ≤ p := by
  unfold calcul_is
  split_ifs with h1 h2 <;>
    norm_num [IS_SEUIL_REDUIT, IS_TAUX_REDUIT, IS_TAUX_NORMAL] at * <;> nlinarith

/-- C6: in both pipelines, if the distribution flag is off or the
post-corporate-tax retained result is `≤ 0`, then gross dividends,
dividend social contributions, dividend tax and net dividends are all
`0` and the personal income-tax base is just the salary base (no
dividend amount enters it). -/
theorem dividends_all_or_nothing
    (ca ch cible : ℚ) (dd : Bool) (parts cap : ℚ) (opt : Bool) :
    ((dd = false ∨ (simuler_sasu ca ch cible dd parts opt).resultat_net_societe ≤ 0) →
      (simuler_sasu ca ch cible dd parts opt).dividendes_bruts = 0
      ∧ (simuler_sasu ca ch cible dd parts opt).charges_dividendes = 0
      ∧ (simuler_sasu ca ch cible dd parts opt).impot_dividendes = 0
      ∧ (simuler_sasu ca ch cible dd parts opt).dividendes_nets = 0
      ∧ (simuler_sasu ca ch cible dd parts opt).revenu_imposable_ir
          = (simuler_sasu ca ch cible dd parts opt).remuneration_nette
            - min ((simuler_sasu ca ch cible dd parts opt).remuneration_nette * 0.10) 14171)
    ∧ ((dd = false ∨ (simuler_eurl ca ch cible dd parts cap opt).resultat_net_societe ≤ 0) →
      (simuler_eurl ca ch cible dd parts cap opt).dividendes_bruts = 0
      ∧ (simuler_eurl ca ch cible dd parts cap opt).charges_dividendes = 0
      ∧ (simuler_eurl ca ch cible dd parts cap opt).impot_dividendes = 0
      ∧ (simuler_eurl ca ch cible dd parts cap opt).dividendes_nets = 0
      ∧ (simuler_eurl ca ch cible dd parts cap opt).revenu_imposable_ir
          = (simuler_eurl ca ch cible dd parts cap opt).remuneration_nette
            - min ((simuler_eurl ca ch cible dd parts cap opt).remuneration_nette * 0.10)
              14171) := by
  refine ⟨?_, ?_⟩ <;> intro h <;>
      simp only [simuler_sasu, simuler_eurl] at h ⊢ <;>
      rcases h with h | h
  · subst h; simp
  · have h2 := not_lt.2 h; simp [h2]
  · subst h; simp
  · have h2 := not_lt.2 h; simp [h2]

/-- Witness for C6 with the distribution flag off. -/
theorem dividends_all_or_nothing_witness :
    ((simuler_sasu 100000 10000 48000 false 1 false).dividendes_bruts = 0
      ∧ (simuler_sasu 100000 10000 48000 false 1 false).charges_dividendes = 0
      ∧ (simuler_sasu 100000 10000 48000 false 1 false).impot_dividendes = 0
      ∧ (simuler_sasu 100000 10000 48000 false 1 false).dividendes_nets = 0
      ∧ (simuler_sasu 100000 10000 48000 false 1 false).revenu_imposable_ir
          = (simuler_sasu 100000 10000 48000 false 1 false).remuneration_nette
            - min ((simuler_sasu 100000 10000 48000 false 1 false).remuneration_nette * 0.10)
              14171)
    ∧ ((simuler_eurl 100000 10000 48000 false 1 1000 false).dividendes_bruts = 0
      ∧ (simuler_eurl 100000 10000 48000 false 1 1000 false).charges_dividendes = 0
      ∧ (simuler_eurl 100000 10000 48000 false 1 1000 false).impot_dividendes = 0
      ∧ (simuler_eurl 100000 10000 48000 false 1 1000 false).dividendes_nets = 0
      ∧ (simuler_eurl 100000 10000 48000 false 1 1000 false).revenu_imposable_ir
          = (simuler_eurl 100000 10000 48000 false 1 1000 false).remuneration_nette
            - min ((simuler_eurl 100000 10000 48000 false 1 1000 false).remuneration_nette * 0.10)
              14171) :=
  ⟨(dividends_all_or_nothing 100000 10000 48000 false 1 1000 false).1 (Or.inl rfl),
   (dividends_all_or_nothing 100000 10000 48000 false 1 1000 false).2 (Or.inl rfl)⟩

/-- C7: in an EURL run that distributes dividends (positive retained
result), the dividend social contribution is `0` when gross dividends
are at most 10% of the share capital and `0.45` times the excess
otherwise, and the personal dividend tax (flat `0.30`, or the `0.172`
social levy under the progressive option, whose `0.6` taxable fraction
feeds the income-tax base) is assessed on gross dividends minus that
contribution. -/
theorem eurl_dividend_contribution
    (ca ch cible : ℚ) (parts cap : ℚ) (opt : Bool)
    (hres : 0 < (simuler_eurl ca ch cible true parts cap opt).resultat_net_societe) :
    ((simuler_eurl ca ch cible true parts cap opt).dividendes_bruts ≤ cap * 0.10 →
      (simuler_eurl ca ch cible true parts cap opt).charges_dividendes = 0)
    ∧ (cap * 0.10 < (simuler_eurl ca ch cible true parts cap opt).dividendes_bruts →
      (simuler_eurl ca ch cible true parts cap opt).charges_dividendes
        = 0.45 * ((simuler_eurl ca ch cible true parts cap opt).dividendes_bruts - cap * 0.10))
    ∧ (simuler_eurl ca ch cible true parts cap opt).impot_dividendes
        = (if opt = true then (0.172 : ℚ) else 0.30)
          * ((simuler_eurl ca ch cible true parts cap opt).dividendes_bruts
            - (simuler_eurl ca ch cible true parts cap opt).charges_dividendes)
    ∧ (opt = true → (simuler_eurl ca ch cible true parts cap opt).revenu_imposable_ir
        = ((simuler_eurl ca ch cible true parts cap opt).remuneration_nette
            - min ((simuler_eurl ca ch cible true parts cap opt).remuneration_nette * 0.10)
              14171)
          + 0.6 * ((simuler_eurl ca ch cible true parts cap opt).dividendes_bruts
            - (simuler_eurl ca ch cible true parts cap opt).charges_dividendes)) := by
  simp only [simuler_eurl] at hres ⊢
  simp only [true_and, and_true, eq_self_iff_true, if_true] at hres ⊢
  simp only [if_pos hres]
  refine ⟨fun hle => ?_, fun hlt => ?_, ?_, fun hopt => ?_⟩
  · rw [max_eq_left (by linarith), zero_mul]
  · rw [max_eq_right (by linarith)]
    simp only [CHARGES_DIVIDENDES_EURL]
    ring1
  · rcases Bool.eq_false_or_eq_true opt with h | h <;> subst h <;>
      simp only [Bool.false_eq_true, if_false, if_true, eq_self_iff_true,
        PRELEVEMENT_SOCIAUX, FLAT_TAX] <;> try ring1
  · subst hopt
    simp only [eq_self_iff_true, true_and, and_self, if_true, if_pos hres]
    ring1

/-- Witness for C7 at the spec's second end-to-end scenario (retained
result `17340 > 0`). -/
theorem eurl_dividend_contribution_witness :
    ((simuler_eurl 100000 10000 48000 true 1 1000 false).dividendes_bruts ≤ 1000 * 0.10 →
      (simuler_eurl 100000 10000 48000 true 1 1000 false).charges_dividendes = 0)
    ∧ (1000 * 0.10 < (simuler_eurl 100000 10000 48000 true 1 1000 false).dividendes_bruts →
      (simuler_eurl 100000 10000 48000 true 1 1000 false).charges_dividendes
        = 0.45 * ((simuler_eurl 100000 10000 48000 true 1 1000 false).dividendes_bruts
          - 1000 * 0.10))
    ∧ (simuler_eurl 100000 10000 48000 true 1 1000 false).impot_dividendes
        = (if false = true then (0.172 : ℚ) else 0.30)
          * ((simuler_eurl 100000 10000 48000 true 1 1000 false).dividendes_bruts
            - (simuler_eurl 100000 10000 48000 true 1 1000 false).charges_dividendes)
    ∧ (false = true → (simuler_eurl 100000 10000 48000 true 1 1000 false).revenu_imposable_ir
        = ((simuler_eurl 100000 10000 48000 true 1 1000 false).remuneration_nette
            - min ((simuler_eurl 100000 10000 48000 true 1 1000 false).remuneration_nette * 0.10)
              14171)
          + 0.6 * ((simuler_eurl 100000 10000 48000 true 1 1000 false).dividendes_bruts
            - (simuler_eurl 100000 10000 48000 true 1 1000 false).charges_dividendes)) :=
  eurl_dividend_contribution 100000 10000 48000 1 1000 false
    (by norm_num [simuler_eurl, calcul_is, IS_SEUIL_REDUIT, IS_TAUX_REDUIT, IS_TAUX_NORMAL,
      CHARGES_EURL_TNS_TAUX])

/-- C10: when dividends are distributed and the retained result is
strictly positive, revenue is exactly partitioned into operating
expenses, compensation social contributions, dividend social
contributions, corporate tax, dividend tax, personal income tax and the
final disposable net, in both pipelines. -/
theorem revenue_conservation (ca ch cible parts cap : ℚ) (optS optE : Bool) :
    (0 < (simuler_sasu ca ch cible true parts optS).resultat_net_societe →
      ca = ch + (simuler_sasu ca ch cible true parts optS).charges_sociales
        + (simuler_sasu ca ch cible true parts optS).charges_dividendes
        + (simuler_sasu ca ch cible true parts optS).is_societe
        + (simuler_sasu ca ch cible true parts optS).impot_dividendes
        + (simuler_sasu ca ch cible true parts optS).ir_total
        + (simuler_sasu ca ch cible true parts optS).net_disponible)
    ∧ (0 < (simuler_eurl ca ch cible true parts cap optE).resultat_net_societe →
      ca = ch + (simuler_eurl ca ch cible true parts cap optE).charges_sociales
        + (simuler_eurl ca ch cible true parts cap optE).charges_dividendes
        + (simuler_eurl ca ch cible true parts cap optE).is_societe
        + (simuler_eurl ca ch cible true parts cap optE).impot_dividendes
        + (simuler_eurl ca ch cible true parts cap optE).ir_total
        + (simuler_eurl ca ch cible true parts cap optE).net_disponible) := by
  refine ⟨?_, ?_⟩ <;> intro h <;>
    simp only [simuler_sasu, simuler_eurl] at h ⊢ <;>
    simp only [true_and, and_true, eq_self_iff_true, if_true] at h ⊢ <;>
    simp only [if_pos h] <;>
    split_ifs <;> ring1

/-- Witness for C10 at the spec's first two end-to-end scenarios
(retained results `2244` and `17340`, both positive). -/
theorem revenue_conservation_witness :
    ((100000 : ℚ) = 10000 + (simuler_sasu 100000 10000 48000 true 1 false).charges_sociales
        + (simuler_sasu 100000 10000 48000 true 1 false).charges_dividendes
        + (simuler_sasu 100000 10000 48000 true 1 false).is_societe
        + (simuler_sasu 100000 10000 48000 true 1 false).impot_dividendes
        + (simuler_sasu 100000 10000 48000 true 1 false).ir_total
        + (simuler_sasu 100000 10000 48000 true 1 false).net_disponible)
    ∧ ((100000 : ℚ) = 10000
        + (simuler_eurl 100000 10000 48000 true 1 1000 false).charges_sociales
        + (simuler_eurl 100000 10000 48000 true 1 1000 false).charges_dividendes
        + (simuler_eurl 100000 10000 48000 true 1 1000 false).is_societe
        + (simuler_eurl 100000 10000 48000 true 1 1000 false).impot_dividendes
        + (simuler_eurl 100000 10000 48000 true 1 1000 false).ir_total
        + (simuler_eurl 100000 10000 48000 true 1 1000 false).net_disponible) :=
  ⟨(revenue_conservation 100000 10000 48000 1 1000 false false).1
    (by norm_num [simuler_sasu, calcul_is, IS_SEUIL_REDUIT, IS_TAUX_REDUIT, IS_TAUX_NORMAL,
      CHARGES_SASU_TAUX]),
   (revenue_conservation 100000 10000 48000 1 1000 false false).2
    (by norm_num [simuler_eurl, calcul_is, IS_SEUIL_REDUIT, IS_TAUX_REDUIT, IS_TAUX_NORMAL,
      CHARGES_EURL_TNS_TAUX])⟩
lemma sasu_taux_in_unit (ca ch cible : ℚ) (dd : Bool) (parts : ℚ) (opt : Bool)
    (hca : 0 < ca) (hch0 : 0 ≤ ch) (hch : ch ≤ ca) (hc : 0 ≤ cible) :
    0 ≤ (simuler_sasu ca ch cible dd parts opt).taux_prelevement_global
    ∧ (simuler_sasu ca ch cible dd parts opt).taux_prelevement_global ≤ 1 := by
  have hCpos : (0:ℚ) < 1 + CHARGES_SASU_TAUX := by norm_num [CHARGES_SASU_TAUX]
  have hC1 : (1:ℚ) ≤ 1 + CHARGES_SASU_TAUX := by norm_num [CHARGES_SASU_TAUX]
  have hC0 : (0:ℚ) ≤ CHARGES_SASU_TAUX := by norm_num [CHARGES_SASU_TAUX]
  have hPS : (0:ℚ) ≤ PRELEVEMENT_SOCIAUX := by norm_num [PRELEVEMENT_SOCIAUX]
  have hFT : (0:ℚ) ≤ FLAT_TAX := by norm_num [FLAT_TAX]
  simp only [simuler_sasu]
  simp only [if_pos hca]
  set B := ca - ch with hBdef
  set coutC := cible * (1 + CHARGES_SASU_TAUX) with hcoutCdef
  set cout := if B < coutC then B else coutC with hcoutdef
  set net := if B < coutC then cout / (1 + CHARGES_SASU_TAUX) else cible with hnetdef
  set charges := if B < coutC then cout - net else cible * CHARGES_SASU_TAUX with hchargesdef
  set apres := B - cout with hapresdef
  set isv := calcul_is apres with hisdef
  set res := apres - isv with hresdef
  set bruts := if dd = true ∧ 0 < res then res else 0 with hbrutsdef
  set impot := if dd = true ∧ 0 < res then
      (if opt = true then bruts * PRELEVEMENT_SOCIAUX else bruts * FLAT_TAX) else 0
    with himpotdef
  set imposables := if dd = true ∧ 0 < res then (if opt = true then bruts * 0.6 else 0) else 0
    with himpodef
  set rsal := net - min (net * 0.10) 14171 with hrsaldef
  set rir := if opt = true ∧ dd = true then rsal + imposables else rsal with hrirdef
  set ir := calcul_ir rir parts with hirdef
  have hB0 : 0 ≤ B := by rw [hBdef]; linarith
  have hBca : B ≤ ca := by rw [hBdef]; linarith
  have hcout_le : cout ≤ B := by
    rw [hcoutdef]; split_ifs with hcl
    · exact le_refl B
    · exact not_lt.1 hcl
  have hnet0 : 0 ≤ net := by
    rw [hnetdef]; split_ifs with hcl
    · have hcB : cout = B := by rw [hcoutdef, if_pos hcl]
      rw [hcB]; exact div_nonneg hB0 hCpos.le
    · exact hc
  have hsum : net + charges = cout := by
    rw [hchargesdef]; split_ifs with hcl
    · ring
    · rw [hnetdef, if_neg hcl, hcoutdef, if_neg hcl, hcoutCdef]; ring
  have hcharges0 : 0 ≤ charges := by
    rw [hchargesdef]; split_ifs with hcl
    · have hcB : cout = B := by rw [hcoutdef, if_pos hcl]
      have hnB : net = B / (1 + CHARGES_SASU_TAUX) := by rw [hnetdef, if_pos hcl, hcB]
      rw [hcB, hnB]
      have := div_le_self hB0 hC1
      linarith
    · exact mul_nonneg hc hC0
  have hapres0 : 0 ≤ apres := by rw [hapresdef]; linarith
  have his0 : 0 ≤ isv := by rw [hisdef]; exact calcul_is_nonneg apres
  have his1 : isv ≤ apres := by rw [hisdef]; exact calcul_is_le apres hapres0
  have hres0 : 0 ≤ res := by rw [hresdef]; linarith
  have hbruts : 0 ≤ bruts ∧ bruts ≤ res := by
    rw [hbrutsdef]; split_ifs with hd
    · exact ⟨hd.2.le, le_refl res⟩
    · exact ⟨le_refl 0, hres0⟩
  have himpot : 0 ≤ impot ∧ 0 ≤ imposables ∧ impot + imposables ≤ bruts := by
    rw [himpotdef, himpodef]; split_ifs with hd ho
    · refine ⟨mul_nonneg hbruts.1 hPS, mul_nonneg hbruts.1 (by norm_num), ?_⟩
      have := hbruts.1
      norm_num [PRELEVEMENT_SOCIAUX]
      linarith
    · refine ⟨mul_nonneg hbruts.1 hFT, le_refl 0, ?_⟩
      have := hbruts.1
      norm_num [FLAT_TAX]
      linarith
    · exact ⟨le_refl 0, le_refl 0, by simpa using hbruts.1⟩
  have hrsal : 0 ≤ rsal ∧ rsal ≤ net := by
    constructor <;> rw [hrsaldef]
    · have h1 : min (net * 0.10) 14171 ≤ net * 0.10 := min_le_left _ _
      linarith only [h1, hnet0]
    · have h2 : (0:ℚ) ≤ min (net * 0.10) 14171 :=
        le_min (by linarith only [hnet0]) (by norm_num)
      linarith only [h2]
  have hrir : 0 ≤ rir ∧ rir ≤ rsal + imposables := by
    rw [hrirdef]; split_ifs with ho
    · exact ⟨add_nonneg hrsal.1 himpot.2.1, le_refl _⟩
    · exact ⟨hrsal.1, le_add_of_nonneg_right himpot.2.1⟩
  have hir : 0 ≤ ir ∧ ir ≤ rsal + imposables := by
    constructor <;> rw [hirdef]
    · exact calcul_ir_nonneg rir parts
    · have h1 := calcul_ir_le_max rir parts
      rw [max_eq_left hrir.1] at h1
      exact le_trans h1 hrir.2
  constructor
  · exact div_nonneg (by linarith [himpot.1, hir.1]) hca.le
  · rw [div_le_one hca]
    linarith [hir.2, hrsal.2, himpot.2.2, hbruts.2]
set_option maxHeartbeats 2000000 in
lemma eurl_taux_in_unit (ca ch cible : ℚ) (dd : Bool) (parts cap : ℚ) (opt : Bool)
    (hca : 0 < ca) (hch0 : 0 ≤ ch) (hch : ch ≤ ca) (hc : 0 ≤ cible) (hcap : 0 ≤ cap) :
    0 ≤ (simuler_eurl ca ch cible dd parts cap opt).taux_prelevement_global
    ∧ (simuler_eurl ca ch cible dd parts cap opt).taux_prelevement_global ≤ 1 := by
  have hCpos : (0:ℚ) < 1 + CHARGES_EURL_TNS_TAUX := by norm_num [CHARGES_EURL_TNS_TAUX]
  have hC1 : (1:ℚ) ≤ 1 + CHARGES_EURL_TNS_TAUX := by norm_num [CHARGES_EURL_TNS_TAUX]
  have hC0 : (0:ℚ) ≤ CHARGES_EURL_TNS_TAUX := by norm_num [CHARGES_EURL_TNS_TAUX]
  have hPS : (0:ℚ) ≤ PRELEVEMENT_SOCIAUX := by norm_num [PRELEVEMENT_SOCIAUX]
  have hFT : (0:ℚ) ≤ FLAT_TAX := by norm_num [FLAT_TAX]
  simp only [simuler_eurl]
  simp only [if_pos hca]
  set B := ca - ch with hBdef
  set coutC := cible * (1 + CHARGES_EURL_TNS_TAUX) with hcoutCdef
  set cout := if B < coutC then B else coutC with hcoutdef
  set net := if B < coutC then cout / (1 + CHARGES_EURL_TNS_TAUX) else cible with hnetdef
  set charges := if B < coutC then cout - net else cible * CHARGES_EURL_TNS_TAUX
    with hchargesdef
  set apres := B - cout with hapresdef
  set isv := calcul_is apres with hisdef
  set res := apres - isv with hresdef
  set bruts := if dd = true ∧ 0 < res then res else 0 with hbrutsdef
  set soumis := max 0 (bruts - cap * 0.10) with hsoumisdef
  set chdiv := if dd = true ∧ 0 < res then soumis * CHARGES_DIVIDENDES_EURL else 0
    with hchdivdef
  set apresch := bruts - chdiv with hapreschdef
  set impot := if dd = true ∧ 0 < res then
      (if opt = true then apresch * PRELEVEMENT_SOCIAUX else apresch * FLAT_TAX) else 0
    with himpotdef
  set imposables := if dd = true ∧ 0 < res then (if opt = true then apresch * 0.6 else 0) else 0
    with himpodef
  set rsal := net - min (net * 0.10) 14171 with hrsaldef
  set rir := if opt = true ∧ dd = true then rsal + imposables else rsal with hrirdef
  set ir := calcul_ir rir parts with hirdef
  have hB0 : 0 ≤ B := by rw [hBdef]; linarith
  have hBca : B ≤ ca := by rw [hBdef]; linarith
  have hcout_le : cout ≤ B := by
    rw [hcoutdef]; split_ifs with hcl
    · exact le_refl B
    · exact not_lt.1 hcl
  have hnet0 : 0 ≤ net := by
    rw [hnetdef]; split_ifs with hcl
    · have hcB : cout = B := by rw [hcoutdef, if_pos hcl]
      rw [hcB]; exact div_nonneg hB0 hCpos.le
    · exact hc
  have hsum : net + charges = cout := by
    rw [hchargesdef]; split_ifs with hcl
    · ring
    · rw [hnetdef, if_neg hcl, hcoutdef, if_neg hcl, hcoutCdef]; ring
  have hcharges0 : 0 ≤ charges := by
    rw [hchargesdef]; split_ifs with hcl
    · have hcB : cout = B := by rw [hcoutdef, if_pos hcl]
      have hnB : net = B / (1 + CHARGES_EURL_TNS_TAUX) := by rw [hnetdef, if_pos hcl, hcB]
      rw [hcB, hnB]
      have := div_le_self hB0 hC1
      linarith
    · exact mul_nonneg hc hC0
  have hapres0 : 0 ≤ apres := by rw [hapresdef]; linarith
  have his0 : 0 ≤ isv := by rw [hisdef]; exact calcul_is_nonneg apres
  have his1 : isv ≤ apres := by rw [hisdef]; exact calcul_is_le apres hapres0
  have hres0 : 0 ≤ res := by rw [hresdef]; linarith
  have hbruts : 0 ≤ bruts ∧ bruts ≤ res := by
    rw [hbrutsdef]; split_ifs with hd
    · exact ⟨hd.2.le, le_refl res⟩
    · exact ⟨le_refl 0, hres0⟩
  have hsoumis : 0 ≤ soumis ∧ soumis ≤ bruts := by
    rw [hsoumisdef]
    refine ⟨le_max_left 0 _, max_le hbruts.1 ?_⟩
    linarith only [hcap]
  have hchdiv : 0 ≤ chdiv ∧ chdiv ≤ soumis := by
    rw [hchdivdef]; split_ifs with hd
    · constructor
      · exact mul_nonneg hsoumis.1 (by norm_num [CHARGES_DIVIDENDES_EURL])
      · norm_num [CHARGES_DIVIDENDES_EURL]
        linarith [hsoumis.1]
    · exact ⟨le_refl 0, hsoumis.1⟩
  have hapresch : 0 ≤ apresch ∧ chdiv + apresch = bruts := by
    rw [hapreschdef]
    constructor
    · linarith [hchdiv.2, hsoumis.2]
    · ring
  have himpot : 0 ≤ impot ∧ 0 ≤ imposables ∧ impot + imposables ≤ apresch := by
    rw [himpotdef, himpodef]; split_ifs with hd ho
    · refine ⟨mul_nonneg hapresch.1 hPS, mul_nonneg hapresch.1 (by norm_num), ?_⟩
      have := hapresch.1
      norm_num [PRELEVEMENT_SOCIAUX]
      linarith
    · refine ⟨mul_nonneg hapresch.1 hFT, le_refl 0, ?_⟩
      have := hapresch.1
      norm_num [FLAT_TAX]
      linarith
    · exact ⟨le_refl 0, le_refl 0, by simpa using hapresch.1⟩
  have hrsal : 0 ≤ rsal ∧ rsal ≤ net := by
    constructor <;> rw [hrsaldef]
    · have h1 : min (net * 0.10) 14171 ≤ net * 0.10 := min_le_left _ _
      linarith only [h1, hnet0]
    · have h2 : (0:ℚ) ≤ min (net * 0.10) 14171 :=
        le_min (by linarith only [hnet0]) (by norm_num)
      linarith only [h2]
  have hrir : 0 ≤ rir ∧ rir ≤ rsal + imposables := by
    rw [hrirdef]; split_ifs with ho
    · exact ⟨add_nonneg hrsal.1 himpot.2.1, le_refl _⟩
    · exact ⟨hrsal.1, le_add_of_nonneg_right himpot.2.1⟩
  have hir : 0 ≤ ir ∧ ir ≤ rsal + imposables := by
    constructor <;> rw [hirdef]
    · exact calcul_ir_nonneg rir parts
    · have h1 := calcul_ir_le_max rir parts
      rw [max_eq_left hrir.1] at h1
      exact le_trans h1 hrir.2
  constructor
  · exact div_nonneg (by linarith [himpot.1, hir.1, hchdiv.1]) hca.le
  · rw [div_le_one hca]
    linarith [hir.2, hrsal.2, himpot.2.2, hapresch.2, hbruts.2]

/-- C8 counterexample: revenue `100 > 0`, operating expenses
`-100000 ≤ 100` and target `10000 ≥ 0` satisfy the claim's stated
side-conditions, yet the SASU levy rate is `244.25 > 1` — the claim
needs expenses `≥ 0`. -/
theorem levy_rate_counterexample :
    (0:ℚ) < 100 ∧ (-100000:ℚ) ≤ 100 ∧ (0:ℚ) ≤ 10000
    ∧ 1 < (simuler_sasu 100 (-100000) 10000 false 1 false).taux_prelevement_global := by
  refine ⟨by norm_num, by norm_num, by norm_num, ?_⟩
  norm_num [simuler_sasu, calcul_is, calcul_ir, ir_boucle, TRANCHES_IR, CHARGES_SASU_TAUX,
    IS_SEUIL_REDUIT, IS_TAUX_REDUIT, IS_TAUX_NORMAL]

/-- C8 (amended): for economically sane inputs — revenue `> 0`,
operating expenses between `0` and the revenue, target compensation
`≥ 0` (and share capital `≥ 0` for the EURL pipeline) — the overall
levy rate lies in `[0, 1]`; and at revenue `= 0` the levy rate is
exactly `0` by definition (no division error). -/
theorem levy_rate_bounds (ca ch cible : ℚ) (dd : Bool) (parts cap : ℚ) (opt : Bool) :
    (0 < ca → 0 ≤ ch → ch ≤ ca → 0 ≤ cible →
      0 ≤ (simuler_sasu ca ch cible dd parts opt).taux_prelevement_global
      ∧ (simuler_sasu ca ch cible dd parts opt).taux_prelevement_global ≤ 1)
    ∧ (0 < ca → 0 ≤ ch → ch ≤ ca → 0 ≤ cible → 0 ≤ cap →
      0 ≤ (simuler_eurl ca ch cible dd parts cap opt).taux_prelevement_global
      ∧ (simuler_eurl ca ch cible dd parts cap opt).taux_prelevement_global ≤ 1)
    ∧ (simuler_sasu 0 ch cible dd parts opt).taux_prelevement_global = 0
    ∧ (simuler_eurl 0 ch cible dd parts cap opt).taux_prelevement_global = 0 := by
  refine ⟨fun h1 h2 h3 h4 => sasu_taux_in_unit ca ch cible dd parts opt h1 h2 h3 h4,
    fun h1 h2 h3 h4 h5 => eurl_taux_in_unit ca ch cible dd parts cap opt h1 h2 h3 h4 h5,
    ?_, ?_⟩
  · simp only [simuler_sasu]; rw [if_neg (lt_irrefl 0)]
  · simp only [simuler_eurl]; rw [if_neg (lt_irrefl 0)]

/-- Witness for C8 (amended) at the spec's first two scenarios. -/
theorem levy_rate_bounds_witness :
    (0 ≤ (simuler_sasu 100000 10000 48000 true 1 false).taux_prelevement_global
      ∧ (simuler_sasu 100000 10000 48000 true 1 false).taux_prelevement_global ≤ 1)
    ∧ (0 ≤ (simuler_eurl 100000 10000 48000 true 1 1000 false).taux_prelevement_global
      ∧ (simuler_eurl 100000 10000 48000 true 1 1000 false).taux_prelevement_global ≤ 1) :=
  ⟨(levy_rate_bounds 100000 10000 48000 true 1 1000 false).1
      (by norm_num) (by norm_num) (by norm_num) (by norm_num),
   (levy_rate_bounds 100000 10000 48000 true 1 1000 false).2.1
      (by norm_num) (by norm_num) (by norm_num) (by norm_num) (by norm_num)⟩

/-- Witness for C9: a concrete parameter bundle (revenue `100000`,
expenses `10000`, monthly target `4000`, dividends on, one share,
capital `1000`) satisfies every rule, so its construction succeeds. -/
theorem simulation_parameters_validation_iff_witness :
    postInitOk ⟨100000, 10000, 4000, true, 1, false, 1000⟩ = true :=
  (simulation_parameters_validation_iff ⟨100000, 10000, 4000, true, 1, false, 1000⟩).2
    (by norm_num)
